import Mathlib

/-!
Verification development for the sweep-orchestration core of `softlab`
(`softlab/huo/process/common.py`).  The Python classes `AtomJob`,
`AtomJobSweeper`, `Counter`, `Scanner` and `GridScanner`, together with the
normalization helpers `parse_getters`, `parse_setters` and
`parse_setters_with_values`, are embedded shallowly: every method becomes a
pure Lean function over an explicit state record, Python exceptions become
an error type, and wall-clock sleeps become entries of an explicit pass
trace.  External collaborators that are not part of the examined sources
(the process substrate's run loop, `Parameter`, `DataRecord`,
`LimitedAttribute`) are modelled from the specification, as indicated by
their doc comments.
-/

deriving instance DecidableEq for Except

namespace Softlab

/-- Values carried by parameters, attributes and record cells.  The Python
code is value-polymorphic (`Any`); the claims under study only move values
around, so a single concrete value type suffices. -/
abbrev Val := Int

/-- Python `Dict[str, Any]` of setter values, in insertion order. -/
abbrev ValueDict := List (String × Val)

/-- Kinds of Python exceptions raised by the embedded code paths.
`valueError` keeps its message because the spec distinguishes descriptive
validation errors from incidental failures. -/
inductive PyErr where
  | typeError
  | valueError (msg : String)
  | indexError
  | nameError
deriving DecidableEq

/-- Modelled from the spec: `Parameter` (`softlab.tu.station`, not under
`src/`).  Per §2/§6 an attribute/parameter is a named holder of a current
value, read by calling it with no argument and written by calling it with a
value.  Only the name (identity) and the construction-time current value are
needed by the embedded code. -/
structure Parameter where
  name : String
  value : Val
deriving DecidableEq

/-- Modelled from the spec: `DataRecord` (`softlab.shui.data.base`, not
under `src/`).  Per §3/§6 it is an append-only table with a fixed column
schema, exposing `has_column(name)` and `add_rows(mapping)` which appends
one row for a mapping of scalars. -/
structure DataRecord where
  name : String
  columns : List String
  rows : List ValueDict
deriving DecidableEq

/-- `DataRecord.has_column`: membership of a name in the schema. -/
def DataRecord.has_column (r : DataRecord) (c : String) : Bool :=
  r.columns.contains c

/-- `DataRecord.add_rows` applied to one mapping of scalars: append one
row. -/
def DataRecord.add_rows (r : DataRecord) (row : ValueDict) : DataRecord :=
  { r with rows := r.rows ++ [row] }

/-- State of one `AtomJob` (`common.py` lines 42-141).  The attributes
registered by `add_attribute` split into the fixed configuration attributes
(`t0`, the three delays, `is_dryrun`), which become fields, and the mirrored
setter attributes (one per setter binding, line 73), which are kept fused
with their binding as the third component of each `setters` entry.  `setters`
entries are `(key, parameter name, mirrored attribute value)`; `getters`
entries are `(key, parameter name)`.  `columns` lists the record schema the
job declares (`self._columns` names, line 63/74-77/86-89). -/
structure AtomJob where
  t0 : ℚ
  delay_begin : ℚ
  delay_after_set : ℚ
  delay_end : ℚ
  is_dryrun : Bool
  setters : List (String × String × Val)
  getters : List (String × String)
  columns : List String
  record : Option DataRecord
deriving DecidableEq

/-- The delay-clamping rule of the constructors (`common.py` lines 53-61,
163-174): a negative (or wrong-typed) delay is silently replaced by 0. -/
def clampDelay (d : ℚ) : ℚ := if d < 0 then 0 else d

/-- `AtomJob.__init__` (`common.py` lines 44-90) restricted to the parts
with observable state.  The setter loop (lines 65-77) keeps bindings with a
non-empty key and registers the mirrored attribute with the given initial
value.  The getter loop (lines 78-89) contains the source's slip: it reads
`setter[1]` — the loop variable of the *setter* loop — so every getter key
is registered against the last setter's parameter, and when there are
getter entries but no setters at all the lookup of the name `setter` raises
`NameError`. -/
def AtomJob.init (setters : List (String × String × Val))
    (getters : List (String × String))
    (delay_begin delay_after_set delay_end : ℚ) : Except PyErr AtomJob :=
  let vsetters := setters.filter (fun s => 0 < s.1.length)
  match getters, setters.getLast? with
  | _ :: _, none => .error .nameError
  | gs, last? =>
    let vgetters : List (String × String) :=
      match last? with
      | some s => (gs.filter (fun g => 0 < g.1.length)).map (fun g => (g.1, s.2.1))
      | none => []
    .ok { t0 := 0
          delay_begin := clampDelay delay_begin
          delay_after_set := clampDelay delay_after_set
          delay_end := clampDelay delay_end
          is_dryrun := false
          setters := vsetters
          getters := vgetters
          columns := "timestamp" :: (vsetters.map (·.1) ++ vgetters.map (·.1))
          record := none }

/-- `AtomJob.record` setter (`common.py` lines 104-112): walk the declared
columns in order and fail on the first one the record lacks; the binding is
assigned only after every check passed, so on failure the previous binding
is untouched (the job is returned unchanged together with the error). -/
def AtomJob.setRecord (j : AtomJob) (r : DataRecord) : AtomJob × Option PyErr :=
  match j.columns.find? (fun c => ! r.has_column c) with
  | some c => (j, some (.valueError ("Record " ++ r.name ++ " has no column " ++ c)))
  | none => ({ j with record := some r }, none)

/-- A sleep of `d` seconds is performed only when `d > 0`
(`common.py` lines 122-123, 132-133, 140-141). -/
def sleepIf (d : ℚ) : List ℚ :=
  if 0 < d then [d] else []

/-- Observable effects of one `AtomJob.body` pass: the `delay_begin` in
force when the pass ran, the sleeps actually performed in order, the
hardware writes performed by the setter phase, and the row appended to the
record (`none` when nothing was recorded). -/
structure PassTrace where
  dBegin : ℚ
  sleeps : List ℚ
  hwWrites : List (String × Val)
  row : Option ValueDict
deriving DecidableEq

/-- The row a `body` pass assembles (`common.py` lines 124-136): the
timestamp, then one entry per setter binding holding the mirrored attribute
value (line 130), then one entry per getter binding holding the bound
parameter's current value (line 136).  `env` gives each parameter's current
hardware value at this pass.  Both phases run only when non-empty and not
dry-run (lines 126, 134). -/
def AtomJob.rowOf (j : AtomJob) (ts : Val) (env : String → Val) : ValueDict :=
  ("timestamp", ts) ::
    ((if 0 < j.setters.length ∧ j.is_dryrun = false then
        j.setters.map (fun s => (s.1, s.2.2)) else []) ++
     (if 0 < j.getters.length ∧ j.is_dryrun = false then
        j.getters.map (fun g => (g.1, env g.2)) else []))

/-- The sleeps a `body` pass performs (`common.py` lines 121-123, 131-133,
139-141): `delay_begin`, then — only inside the non-dry-run setter phase —
`delay_after_set`, then `delay_end`. -/
def AtomJob.passSleeps (j : AtomJob) : List ℚ :=
  sleepIf j.delay_begin ++
    (if 0 < j.setters.length ∧ j.is_dryrun = false then sleepIf j.delay_after_set
     else []) ++
    sleepIf j.delay_end

/-- The hardware writes of the setter phase (`common.py` line 129):
`para(attr())` re-applies each mirrored attribute value through its
parameter; nothing is written when dry-run or when there are no setters. -/
def AtomJob.passWrites (j : AtomJob) : List (String × Val) :=
  if 0 < j.setters.length ∧ j.is_dryrun = false then
    j.setters.map (fun s => (s.2.1, s.2.2))
  else []

/-- `AtomJob.body` (`common.py` lines 120-141): one measurement cycle.  The
job state changes only by the row appended to the bound record (line
137-138), which happens exactly when a record is bound and the pass is not
a dry run. -/
def AtomJob.body (j : AtomJob) (ts : Val) (env : String → Val) :
    AtomJob × PassTrace :=
  if j.record.isSome ∧ j.is_dryrun = false then
    ({ j with record := j.record.map (fun r => r.add_rows (j.rowOf ts env)) },
     ⟨j.delay_begin, j.passSleeps, j.passWrites, some (j.rowOf ts env)⟩)
  else
    (j, ⟨j.delay_begin, j.passSleeps, j.passWrites, none⟩)

/-- The two hooks a concrete sweep strategy supplies (`common.py` lines
192-198), with the strategy's own mutable fields made explicit as a state
`S`.  `adaptive` in the source also receives the child's record, but every
concrete strategy (`Counter.adaptive`, `Scanner.adaptive`,
`GridScanner.adaptive`, lines 299, 348, 405) ignores that argument, so it
is dropped here. -/
structure Strategy (S : Type) where
  reset : S → S
  adaptive : S → ValueDict × S

/-- State of an `AtomJobSweeper` (`common.py` lines 143-226): the sweep's
own configuration attributes, the `_sweeping` flag, the strategy state and
the child `AtomJob`. -/
structure Sweeper (S : Type) where
  t0 : ℚ
  delay_begin : ℚ
  delay_after_set : ℚ
  delay_gap : ℚ
  delay_end : ℚ
  sweeping : Bool
  strat : S
  child : AtomJob
deriving DecidableEq

/-- `AtomJobSweeper.record` setter (`common.py` lines 185-187): it assigns
`self.child._record = record` directly, writing the child's private field,
so no schema validation runs — unlike `AtomJob`'s own setter. -/
def Sweeper.setRecord {S : Type} (sw : Sweeper S) (r : DataRecord) : Sweeper S :=
  { sw with child := { sw.child with record := some r } }

/-- `AtomJobSweeper.reset_sweep` (`common.py` lines 200-207): copy `t0`,
`delay_begin`, `delay_after_set` onto the child, force the child's
`delay_end` to 0 and `is_dryrun` to false, clear `_sweeping`, and invoke
the strategy's `reset`. -/
def reset_sweep {S : Type} (st : Strategy S) (sw : Sweeper S) : Sweeper S :=
  { sw with
    child := { sw.child with
               t0 := sw.t0
               delay_begin := sw.delay_begin
               delay_after_set := sw.delay_after_set
               delay_end := 0
               is_dryrun := false }
    sweeping := false
    strat := st.reset sw.strat }

/-- The update of the child's mirrored setter attributes performed by
`perform_sweep` (`common.py` lines 214-217): for each `(key, value)` of the
adaptive result, the attribute named `key` is written when it exists as a
sweep-writable attribute, and the pair is silently dropped otherwise.
Modelled from the spec for the attribute-registry part: `Process.attribute`
and `LimitedAttribute` are not under `src/`, and §4.3(b) resolves adaptive
keys against the child's mirrored setter attributes. -/
def applySetterValues (setters : List (String × String × Val)) (vs : ValueDict) :
    List (String × String × Val) :=
  vs.foldl (fun ss kv => ss.map (fun s => if s.1 = kv.1 then (s.1, s.2.1, kv.2) else s))
    setters

/-- The child after `perform_sweep` applied an adaptive result to it. -/
def AtomJob.applyValues (j : AtomJob) (vs : ValueDict) : AtomJob :=
  { j with setters := applySetterValues j.setters vs }

/-- `AtomJobSweeper.perform_sweep` (`common.py` lines 209-226), the
sweeper adapter's `advance` operation.  Returns the new sweeper state and
the `continue` flag. -/
def perform_sweep {S : Type} (st : Strategy S) (sw : Sweeper S) : Sweeper S × Bool :=
  if sw.child.is_dryrun then (sw, false)
  else
    let a := st.adaptive sw.strat
    if 0 < a.1.length then
      let child1 := sw.child.applyValues a.1
      if sw.sweeping then
        ({ sw with strat := a.2, child := { child1 with delay_begin := sw.delay_gap } },
         true)
      else
        ({ sw with strat := a.2, sweeping := true, child := child1 }, true)
    else
      ({ sw with
         strat := a.2
         child := { sw.child with
                    delay_begin := 0
                    delay_end := sw.delay_end
                    is_dryrun := true } },
       true)

/-- Modelled from the spec: the `SweepProcess` run loop
(`softlab.huo.process.composite`, not under `src/`).  Per §4.3 the loop
alternates the sweeper adapter's `advance` with a full child pass and stops
when `advance` returns false; per the state machine (`Priming → (first
adaptive yields value) → Sweeping`) and the §8 round-trip property
(`Scanner [{x:1},{x:2},{x:3}]` records exactly the three listed rows),
`advance` configures the child *before* each pass.  `fuel` bounds the
number of `advance` calls so the loop is total; `k` numbers the passes so
each pass can see its own wall-clock timestamp `ts k` and hardware readings
`env k`.  Returns the final sweeper state and the trace of all passes. -/
def runSweep {S : Type} (st : Strategy S) (env : Nat → String → Val) (ts : Nat → Val) :
    Nat → Nat → Sweeper S → Sweeper S × List PassTrace
  | 0, _, sw => (sw, [])
  | fuel + 1, k, sw =>
    let step := perform_sweep st sw
    if step.2 then
      let pass := AtomJob.body step.1.child (ts k) (env k)
      let rest := runSweep st env ts fuel (k + 1) { step.1 with child := pass.1 }
      (rest.1, pass.2 :: rest.2)
    else (step.1, [])

/-- The union input type of the normalization helpers (`common.py` lines
32-34): an ordered sequence of parameters, a keyed mapping (in insertion
order), or a sequence of `(name, parameter)` pairs.  The Python code
distinguishes the two sequence shapes by inspecting the first element. -/
inductive ParameterSet where
  | ofParams : List Parameter → ParameterSet
  | ofDict : List (String × Parameter) → ParameterSet
  | ofPairs : List (String × Parameter) → ParameterSet
deriving DecidableEq

/-- `parse_getters` (`common.py` lines 228-235): a non-empty sequence whose
first element is a tuple is returned as is; a sequence of parameters is
paired with each parameter's name; a mapping contributes its items; an
empty sequence falls through to the final `return []` (the same value the
other branches give on empty input). -/
def parse_getters : ParameterSet → List (String × Parameter)
  | .ofParams ps => ps.map (fun p => (p.name, p))
  | .ofPairs ps => ps
  | .ofDict d => d

/-- `parse_setters` (`common.py` lines 237-244).  The pair-sequence branch
(line 240) and the mapping branch (line 243) apply `map` to a
*two-parameter* lambda over a single iterable, so forcing the resulting
list raises `TypeError` whenever the input is non-empty; only the
plain-parameter-sequence branch (line 241) is well formed. -/
def parse_setters : ParameterSet → Except PyErr (List (String × Parameter × Val))
  | .ofParams ps => .ok (ps.map (fun p => (p.name, p, p.value)))
  | .ofPairs [] => .ok []
  | .ofPairs (_ :: _) => .error .typeError
  | .ofDict [] => .ok []
  | .ofDict (_ :: _) => .error .typeError

/-- Lookup in a `ValueDict` (Python `key in values` / `values[key]`). -/
def lookupValue (values : ValueDict) (k : String) : Option Val :=
  (values.find? (fun kv => kv.1 = k)).map (·.2)

/-- `parse_setters_with_values` (`common.py` lines 246-267): like
`parse_setters` but the initial value of a key is the override supplied in
`values` when present, else the parameter's current value.  The
pair-sequence branch (lines 250-254) and the mapping branch (lines 262-266)
have the same mismatched-arity `map` lambda as `parse_setters`, raising
`TypeError` on any non-empty input of those shapes. -/
def parse_setters_with_values (setters : ParameterSet) (values : ValueDict) :
    Except PyErr (List (String × Parameter × Val)) :=
  match setters with
  | .ofParams ps =>
      .ok (ps.map (fun p => (p.name, p, (lookupValue values p.name).getD p.value)))
  | .ofPairs [] => .ok []
  | .ofPairs (_ :: _) => .error .typeError
  | .ofDict [] => .ok []
  | .ofDict (_ :: _) => .error .typeError

/-- A parsed setter triple as the `AtomJob` constructor consumes it:
`(key, parameter name, initial value)`. -/
def toSetterBinding (t : String × Parameter × Val) : String × String × Val :=
  (t.1, t.2.1.name, t.2.2)

/-- A parsed getter pair as the `AtomJob` constructor consumes it. -/
def toGetterBinding (g : String × Parameter) : String × String :=
  (g.1, g.2.name)

/-- `AtomJobSweeper.__init__` (`common.py` lines 145-175): build the child
`AtomJob` with the sweep's `delay_after_set` (the child's `delay_begin` and
`delay_end` start at their 0 defaults), then register the sweep's own
clamped delay attributes and clear `_sweeping`. -/
def AtomJobSweeper.init {S : Type} (s0 : S)
    (setters : List (String × String × Val)) (getters : List (String × String))
    (delay_begin delay_after_set delay_gap delay_end : ℚ) :
    Except PyErr (Sweeper S) :=
  (AtomJob.init setters getters 0 delay_after_set 0).map (fun child =>
    { t0 := 0
      delay_begin := clampDelay delay_begin
      delay_after_set := clampDelay delay_after_set
      delay_gap := clampDelay delay_gap
      delay_end := clampDelay delay_end
      sweeping := false
      strat := s0
      child := child })

/-- Strategy state of a `Scanner` (`common.py` lines 306-353): the value
sequence and the position cursor. -/
structure ScannerS where
  values : List ValueDict
  index : Nat
deriving DecidableEq

/-- `Scanner.reset` and `Scanner.adaptive` (`common.py` lines 345-353):
while the cursor is inside the sequence, return the current entry and
advance; once it reaches the length, return the empty mapping and leave the
state untouched. -/
def Scanner.strategy : Strategy ScannerS :=
  { reset := fun s => { s with index := 0 }
    adaptive := fun s =>
      if s.index < s.values.length then
        (s.values.getD s.index [], { s with index := s.index + 1 })
      else ([], s) }

/-- `Scanner.values` setter (`common.py` lines 331-336): a non-empty
replacement offered while not sweeping is installed and the cursor reset to
0; anything else (sweep in progress, or an empty sequence) leaves the state
unchanged. -/
def Scanner.setValues (sweeping : Bool) (s : ScannerS) (vs : List ValueDict) : ScannerS :=
  if sweeping = false ∧ 0 < vs.length then ⟨vs, 0⟩ else s

/-- `Scanner.__init__` (`common.py` lines 308-325): evaluate `values[0]`
(raising `IndexError` on an empty sequence), normalize the setters against
it and the getters, build the sweeper, and store the sequence with the
cursor at 0. -/
def Scanner.init (setters : ParameterSet) (values : List ValueDict)
    (getters : ParameterSet)
    (delay_begin delay_after_set delay_gap delay_end : ℚ) :
    Except PyErr (Sweeper ScannerS) := do
  let v0 ← match values with
           | [] => Except.error PyErr.indexError
           | v :: _ => Except.ok v
  let ss ← parse_setters_with_values setters v0
  AtomJobSweeper.init (⟨values, 0⟩ : ScannerS) (ss.map toSetterBinding)
    ((parse_getters getters).map toGetterBinding)
    delay_begin delay_after_set delay_gap delay_end

/-- Strategy state of a `GridScanner` (`common.py` lines 355-417): the grid
of `(key, candidates)` axes, the cached per-axis lengths `_shape`, and the
position vector `_index`, which has one digit per axis plus the extra
carry-out digit (line 380). -/
structure GridS where
  grid : List (String × List Val)
  shape : List Nat
  index : List Nat
deriving DecidableEq

/-- `GridScanner._check_grid` (`common.py` lines 419-428): the grid must be
a non-empty sequence of pairs of a non-empty key and a non-empty candidate
sequence. -/
def check_grid (values : List (String × List Val)) : Bool :=
  0 < values.length && values.all (fun e => 0 < e.1.length && 0 < e.2.length)

/-- `GridScanner.reset` (`common.py` lines 401-403): zero every digit of
the position vector, the carry-out digit included. -/
def GridScanner.reset (gs : GridS) : GridS :=
  { gs with index := List.replicate gs.index.length 0 }

/-- The odometer increment loop of `GridScanner.adaptive` (`common.py`
lines 410-414) over the pair of the position vector and the shape: each
digit is incremented; if it is still below its axis length the loop breaks,
otherwise the digit is reset to 0 and the carry moves on.  When the carry
reaches a digit with no corresponding shape entry — which is exactly the
extra carry-out digit, since `_shape` has one entry per axis — the digit is
incremented and then the subscript `self._shape[i]` raises `IndexError`
(reported by the Boolean). -/
def odoInc : List Nat → List Nat → List Nat × Bool
  | [], _ => ([], false)
  | d :: ds, [] => ((d + 1) :: ds, true)
  | d :: ds, s :: ss =>
      if d + 1 < s then ((d + 1) :: ds, false)
      else
        let r := odoInc ds ss
        (0 :: r.1, r.2)

/-- The value-building loop of `GridScanner.adaptive` (`common.py` lines
407-409): for each axis `i`, read `grid[i][1][index[i]]`; an out-of-range
candidate subscript raises `IndexError` (`none`). -/
def buildRow : List ((String × List Val) × Nat) → Option ValueDict
  | [] => some []
  | (a, d) :: rest =>
      match a.2.get? d with
      | none => none
      | some v => (buildRow rest).map (fun t => (a.1, v) :: t)

/-- `GridScanner.adaptive` (`common.py` lines 405-417): when the carry-out
digit (`self._index[-1]`) is 0, build the current combination, then run the
odometer increment — whose carry, on the run that exhausts the grid,
reaches the extra digit and raises `IndexError` after setting it to 1;
when the carry-out digit is non-zero, return the empty mapping.  The state
component reflects the mutations made before any raise, as the Python
object would. -/
def GridScanner.adaptive (gs : GridS) : Except PyErr ValueDict × GridS :=
  match gs.index.getLast? with
  | none => (.error .indexError, gs)
  | some d =>
    if d = 0 then
      match buildRow (gs.grid.zip gs.index) with
      | none => (.error .indexError, gs)
      | some row =>
        let r := odoInc gs.index gs.shape
        ((if r.2 then .error .indexError else .ok row), { gs with index := r.1 })
    else (.ok [], gs)

/-- `GridScanner.grid` setter (`common.py` lines 386-391): rejected while
sweeping or when the grid fails `_check_grid`; otherwise `self._grid` is
assigned, after which the recomputation of `self._shape` applies `map` to a
two-parameter lambda over the (necessarily non-empty) grid and raises
`TypeError`, so neither `_shape` nor the cursor is ever updated. -/
def GridScanner.setGrid (sweeping : Bool) (gs : GridS)
    (values : List (String × List Val)) : GridS × Option PyErr :=
  if sweeping = false ∧ check_grid values = true then
    ({ gs with grid := values }, some .typeError)
  else (gs, none)

/-- `GridScanner.__init__` (`common.py` lines 357-380): the argument
`dict(map(lambda key, seq: (key, seq[0]), values))` applies `map` to a
two-parameter lambda, so it raises `TypeError` for every non-empty grid
before any validation runs; only an empty grid survives to `_check_grid`,
which then rejects it with the descriptive `ValueError`.  A grid passing
`_check_grid` would still die on the identical mismatched-arity `map` that
computes `self._shape` (line 379), so no `GridScanner` is constructible. -/
def GridScanner.init (setters : ParameterSet) (values : List (String × List Val))
    (getters : ParameterSet)
    (delay_begin delay_after_set delay_gap delay_end : ℚ) :
    Except PyErr (Sweeper GridS) := do
  let d ← match values with
          | [] => Except.ok ([] : ValueDict)
          | _ :: _ => Except.error PyErr.typeError
  let ss ← parse_setters_with_values setters d
  let _ ← AtomJobSweeper.init (⟨values, [], []⟩ : GridS) (ss.map toSetterBinding)
            ((parse_getters getters).map toGetterBinding)
            delay_begin delay_after_set delay_gap delay_end
  if check_grid values then Except.error PyErr.typeError
  else Except.error (PyErr.valueError "Empty value grid to scan")

/-- The strategy state after `n` calls of `adaptive` starting from `s`. -/
def stratIter {S : Type} (st : Strategy S) (s : S) : Nat → S
  | 0 => s
  | n + 1 => (st.adaptive (stratIter st s n)).2

/-- The value mapping produced by the `(n+1)`-th `adaptive` call starting
from `s`. -/
def stratOut {S : Type} (st : Strategy S) (s : S) (n : Nat) : ValueDict :=
  (st.adaptive (stratIter st s n)).1

/-- A concrete Scanner-driven sweeper state: two scan values over a single
setter `x`, a bound record, `delay_begin = 1`, `delay_gap = 2`,
`delay_end = 3`.  Used to instantiate the general theorems. -/
def scannerEx : Sweeper ScannerS :=
  { t0 := 0
    delay_begin := 1
    delay_after_set := 0
    delay_gap := 2
    delay_end := 3
    sweeping := false
    strat := ⟨[[("x", 1)], [("x", 2)]], 0⟩
    child := { t0 := 0
               delay_begin := 9
               delay_after_set := 0
               delay_end := 9
               is_dryrun := false
               setters := [("x", "px", 0)]
               getters := []
               columns := ["timestamp", "x"]
               record := some ⟨"rec", ["timestamp", "x"], []⟩ } }

/-- `scannerEx` in mid-sweep: the `sweeping` flag is set. -/
def scannerRunEx : Sweeper ScannerS :=
  { scannerEx with sweeping := true }

/-- `scannerEx` with its strategy cursor already past the end, so the next
`adaptive` call returns the empty mapping. -/
def scannerIdleEx : Sweeper ScannerS :=
  { scannerEx with strat := ⟨[[("x", 1)], [("x", 2)]], 2⟩ }

/-- A concrete dry-run `AtomJob` with one setter, one getter, a bound
record and all three delays positive and distinct. -/
def dryJobEx : AtomJob :=
  { t0 := 0
    delay_begin := 1
    delay_after_set := 2
    delay_end := 3
    is_dryrun := true
    setters := [("x", "px", 1)]
    getters := [("g", "pg")]
    columns := ["timestamp", "x", "g"]
    record := some ⟨"rec", ["timestamp", "x", "g"], []⟩ }

lemma stratIter_shift {S : Type} (st : Strategy S) (s : S) (n : Nat) :
    stratIter st s (n + 1) = stratIter st (st.adaptive s).2 n := by
  induction n with
  | zero => rfl
  | succ n ih => show (st.adaptive (stratIter st s (n + 1))).2 = _; rw [ih]; rfl

lemma stratOut_shift {S : Type} (st : Strategy S) (s : S) (n : Nat) :
    stratOut st s (n + 1) = stratOut st (st.adaptive s).2 n := by
  unfold stratOut
  rw [stratIter_shift]

lemma body_dry (j : AtomJob) (ts : Val) (env : String → Val)
    (h : j.is_dryrun = true) :
    AtomJob.body j ts env =
      (j, ⟨j.delay_begin, sleepIf j.delay_begin ++ sleepIf j.delay_end, [], none⟩) := by
  simp [AtomJob.body, AtomJob.passSleeps, AtomJob.passWrites, h]

lemma body_run (j : AtomJob) (ts : Val) (env : String → Val) (r : DataRecord)
    (hd : j.is_dryrun = false) (hr : j.record = some r) :
    AtomJob.body j ts env =
      ({ j with record := some (r.add_rows (j.rowOf ts env)) },
       ⟨j.delay_begin, j.passSleeps, j.passWrites, some (j.rowOf ts env)⟩) := by
  simp [AtomJob.body, hd, hr]

lemma ps_dry {S : Type} (st : Strategy S) (sw : Sweeper S)
    (h : sw.child.is_dryrun = true) :
    perform_sweep st sw = (sw, false) := by
  simp [perform_sweep, h]

lemma ps_empty {S : Type} (st : Strategy S) (sw : Sweeper S)
    (hd : sw.child.is_dryrun = false) (ha : (st.adaptive sw.strat).1 = []) :
    perform_sweep st sw =
      ({ sw with
         strat := (st.adaptive sw.strat).2
         child := { sw.child with
                    delay_begin := 0
                    delay_end := sw.delay_end
                    is_dryrun := true } },
       true) := by
  simp [perform_sweep, hd, ha]

lemma ps_prod_first {S : Type} (st : Strategy S) (sw : Sweeper S)
    (hd : sw.child.is_dryrun = false) (hs : sw.sweeping = false)
    (ha : (st.adaptive sw.strat).1 ≠ []) :
    perform_sweep st sw =
      ({ sw with
         strat := (st.adaptive sw.strat).2
         sweeping := true
         child := sw.child.applyValues (st.adaptive sw.strat).1 },
       true) := by
  simp [perform_sweep, hd, hs, List.length_pos, ha]

lemma ps_prod_next {S : Type} (st : Strategy S) (sw : Sweeper S)
    (hd : sw.child.is_dryrun = false) (hs : sw.sweeping = true)
    (ha : (st.adaptive sw.strat).1 ≠ []) :
    perform_sweep st sw =
      ({ sw with
         strat := (st.adaptive sw.strat).2
         child := { sw.child.applyValues (st.adaptive sw.strat).1 with
                    delay_begin := sw.delay_gap } },
       true) := by
  simp [perform_sweep, hd, hs, List.length_pos, ha]

lemma runSweep_stopped {S : Type} (st : Strategy S) (env : Nat → String → Val)
    (ts : Nat → Val) (fuel k : Nat) (sw : Sweeper S)
    (h : sw.child.is_dryrun = true) :
    runSweep st env ts fuel k sw = (sw, []) := by
  cases fuel with
  | zero => rfl
  | succ f => simp [runSweep, ps_dry st sw h]

/-- One unfolding of the run loop in the continue case, with every
intermediate state kept symbolic. -/
lemma runSweep_step_go {S : Type} (st : Strategy S) (env : Nat → String → Val)
    (ts : Nat → Val) (fuel k : Nat) (sw sw1 sw2 : Sweeper S) (c2 : AtomJob)
    (tr : PassTrace)
    (h : perform_sweep st sw = (sw1, true))
    (hb : AtomJob.body sw1.child (ts k) (env k) = (c2, tr))
    (h2 : sw2 = { sw1 with child := c2 }) :
    runSweep st env ts (fuel + 1) k sw =
      ((runSweep st env ts fuel (k + 1) sw2).1,
       tr :: (runSweep st env ts fuel (k + 1) sw2).2) := by
  subst h2
  simp only [runSweep, h, hb, if_true]

/-- Once `adaptive` yields the empty mapping, the run performs exactly one
more pass — the drain pass, configured by the empty branch of
`perform_sweep` — whose only effect is the `delay_end` sleep, and then
stops. -/
lemma runSweep_drain {S : Type} (st : Strategy S) (env : Nat → String → Val)
    (ts : Nat → Val) (fuel k : Nat) (sw : Sweeper S)
    (hd : sw.child.is_dryrun = false) (ha : (st.adaptive sw.strat).1 = [])
    (hf : 2 ≤ fuel) :
    runSweep st env ts fuel k sw =
      ({ sw with
         strat := (st.adaptive sw.strat).2
         child := { sw.child with
                    delay_begin := 0
                    delay_end := sw.delay_end
                    is_dryrun := true } },
       [⟨0, sleepIf sw.delay_end, [], none⟩]) := by
  obtain ⟨f, rfl⟩ : ∃ f, fuel = f + 2 := ⟨fuel - 2, by omega⟩
  have hstep := runSweep_step_go st env ts (f + 1) k sw _
    ({ sw with
       strat := (st.adaptive sw.strat).2
       child := { sw.child with
                  delay_begin := 0
                  delay_end := sw.delay_end
                  is_dryrun := true } }) _ _
    (ps_empty st sw hd ha)
    (body_dry ({ sw.child with
                 delay_begin := 0
                 delay_end := sw.delay_end
                 is_dryrun := true }) (ts k) (env k) rfl)
    rfl
  rw [hstep, runSweep_stopped st env ts (f + 1) (k + 1) _ rfl]
  simp [sleepIf]

/-- Steady-state behaviour of the run loop: from a state where `sweeping`
is already set, a strategy that still yields `M` productive results before
its first empty one produces `M` recorded passes — each run with
`delay_gap` as its begin delay — followed by the single drain pass, after
which the sweeper advance stops the loop. -/
lemma runSweep_steady {S : Type} (st : Strategy S) (env : Nat → String → Val)
    (ts : Nat → Val) :
    ∀ (M : Nat) (sw : Sweeper S) (k fuel : Nat) (r : DataRecord),
      sw.sweeping = true →
      sw.child.is_dryrun = false →
      sw.child.delay_end = 0 →
      sw.child.record = some r →
      (∀ i, i < M → stratOut st sw.strat i ≠ []) →
      stratOut st sw.strat M = [] →
      M + 2 ≤ fuel →
      ∃ prods drain,
        (runSweep st env ts fuel k sw).2 = prods ++ [drain] ∧
        prods.length = M ∧
        (∀ tr ∈ prods, tr.row.isSome = true ∧ tr.dBegin = sw.delay_gap) ∧
        drain.dBegin = 0 ∧
        drain.row = none ∧
        drain.hwWrites = [] ∧
        drain.sleeps = sleepIf sw.delay_end ∧
        (∃ r2, (runSweep st env ts fuel k sw).1.child.record = some r2 ∧
               r2.rows.length = r.rows.length + M) ∧
        (runSweep st env ts fuel k sw).1.child.is_dryrun = true ∧
        perform_sweep st (runSweep st env ts fuel k sw).1 =
          ((runSweep st env ts fuel k sw).1, false) := by
  intro M
  induction M with
  | zero =>
    intro sw k fuel r _ hd _ hr _ hend hf
    have ha : (st.adaptive sw.strat).1 = [] := hend
    rw [runSweep_drain st env ts fuel k sw hd ha hf]
    refine ⟨[], _, rfl, rfl, by simp, rfl, rfl, rfl, rfl, ⟨r, ?_, by omega⟩, rfl, ?_⟩
    · exact hr
    · exact ps_dry st _ rfl
  | succ M ih =>
    intro sw k fuel r hs hd hde hr hne hend hf
    obtain ⟨f, rfl⟩ : ∃ f, fuel = f + 1 := ⟨fuel - 1, by omega⟩
    have h0 : (st.adaptive sw.strat).1 ≠ [] := hne 0 (by omega)
    have hstep := runSweep_step_go st env ts f k sw _
      ({ sw with
         strat := (st.adaptive sw.strat).2
         child := { sw.child.applyValues (st.adaptive sw.strat).1 with
                    delay_begin := sw.delay_gap
                    record := some (r.add_rows (AtomJob.rowOf
                      ({ sw.child.applyValues (st.adaptive sw.strat).1 with
                         delay_begin := sw.delay_gap }) (ts k) (env k))) } }) _ _
      (ps_prod_next st sw hd hs h0)
      (body_run ({ sw.child.applyValues (st.adaptive sw.strat).1 with
                   delay_begin := sw.delay_gap }) (ts k) (env k) r hd hr)
      rfl
    rw [hstep]
    obtain ⟨prods', drain, hsplit, hlen, hprod, hdb, hdr, hdw, hds,
           ⟨r2, hr2, hlen2⟩, hdry, hstop⟩ :=
      ih ({ sw with
            strat := (st.adaptive sw.strat).2
            child := { sw.child.applyValues (st.adaptive sw.strat).1 with
                       delay_begin := sw.delay_gap
                       record := some (r.add_rows (AtomJob.rowOf
                         ({ sw.child.applyValues (st.adaptive sw.strat).1 with
                            delay_begin := sw.delay_gap }) (ts k) (env k))) } })
        (k + 1) f
        (r.add_rows (AtomJob.rowOf ({ sw.child.applyValues (st.adaptive sw.strat).1 with
                                      delay_begin := sw.delay_gap }) (ts k) (env k)))
        hs hd hde rfl
        (fun i hi => by
          have h := hne (i + 1) (by omega)
          rw [stratOut_shift] at h
          exact h)
        (by
          have h := hend
          rw [stratOut_shift] at h
          exact h)
        (by omega)
    rw [hsplit]
    refine ⟨_ :: prods', drain, rfl, ?_, ?_, hdb, hdr,
            hdw, hds, ⟨r2, hr2, ?_⟩, hdry, hstop⟩
    · simp [hlen]
    · intro tr htr
      rcases List.mem_cons.mp htr with h | h
      · subst h
        exact ⟨rfl, rfl⟩
      · exact hprod tr h
    · have : (r.add_rows (AtomJob.rowOf
          ({ sw.child.applyValues (st.adaptive sw.strat).1 with
             delay_begin := sw.delay_gap }) (ts k) (env k))).rows.length =
          r.rows.length + 1 := by
        simp [DataRecord.add_rows]
      omega

/-- C1.  For every sweep run whose strategy yields `N` non-empty adaptive
results before the first empty one, exactly `N` rows are recorded — the
first productive child pass runs with the configured `delay_begin`, every
subsequent productive pass with `delay_gap` as its begin delay — followed
by exactly one unrecorded drain pass that performs only the `delay_end`
wait, after which the sweeper advance returns stop. -/
theorem sweep_run_records_exactly_n_rows {S : Type} (st : Strategy S)
    (sw : Sweeper S) (N : Nat) (env : Nat → String → Val) (ts : Nat → Val)
    (r : DataRecord) (fuel : Nat)
    (hrec : sw.child.record = some r)
    (hne : ∀ i, i < N → stratOut st (st.reset sw.strat) i ≠ [])
    (hend : stratOut st (st.reset sw.strat) N = [])
    (hfuel : N + 2 ≤ fuel) :
    ∃ prods drain,
      (runSweep st env ts fuel 0 (reset_sweep st sw)).2 = prods ++ [drain] ∧
      prods.length = N ∧
      (∀ i (h : i < prods.length), (prods.get ⟨i, h⟩).row.isSome = true ∧
        (prods.get ⟨i, h⟩).dBegin = if i = 0 then sw.delay_begin else sw.delay_gap) ∧
      drain.dBegin = 0 ∧
      drain.row = none ∧
      drain.hwWrites = [] ∧
      drain.sleeps = sleepIf sw.delay_end ∧
      (∃ r2, (runSweep st env ts fuel 0 (reset_sweep st sw)).1.child.record = some r2 ∧
             r2.rows.length = r.rows.length + N) ∧
      (runSweep st env ts fuel 0 (reset_sweep st sw)).1.child.is_dryrun = true ∧
      perform_sweep st (runSweep st env ts fuel 0 (reset_sweep st sw)).1 =
        ((runSweep st env ts fuel 0 (reset_sweep st sw)).1, false) := by
  cases N with
  | zero =>
    have ha : (st.adaptive (reset_sweep st sw).strat).1 = [] := hend
    rw [runSweep_drain st env ts fuel 0 (reset_sweep st sw) rfl ha hfuel]
    refine ⟨[], _, rfl, rfl, by simp, rfl, rfl, rfl, rfl, ⟨r, ?_, by omega⟩, rfl, ?_⟩
    · exact hrec
    · exact ps_dry st _ rfl
  | succ M =>
    obtain ⟨f, rfl⟩ : ∃ f, fuel = f + 1 := ⟨fuel - 1, by omega⟩
    have h0 : (st.adaptive (reset_sweep st sw).strat).1 ≠ [] := hne 0 (by omega)
    have hstep := runSweep_step_go st env ts f 0 (reset_sweep st sw) _
      ({ reset_sweep st sw with
         strat := (st.adaptive (reset_sweep st sw).strat).2
         sweeping := true
         child := { (reset_sweep st sw).child.applyValues
                      (st.adaptive (reset_sweep st sw).strat).1 with
                    record := some (r.add_rows (AtomJob.rowOf
                      ((reset_sweep st sw).child.applyValues
                        (st.adaptive (reset_sweep st sw).strat).1) (ts 0) (env 0))) } })
      _ _
      (ps_prod_first st (reset_sweep st sw) rfl rfl h0)
      (body_run ((reset_sweep st sw).child.applyValues
        (st.adaptive (reset_sweep st sw).strat).1) (ts 0) (env 0) r rfl hrec)
      rfl
    rw [hstep]
    obtain ⟨prods', drain, hsplit, hlen, hprod, hdb, hdr, hdw, hds,
           ⟨r2, hr2, hlen2⟩, hdry, hstop⟩ :=
      runSweep_steady st env ts M
        ({ reset_sweep st sw with
           strat := (st.adaptive (reset_sweep st sw).strat).2
           sweeping := true
           child := { (reset_sweep st sw).child.applyValues
                        (st.adaptive (reset_sweep st sw).strat).1 with
                      record := some (r.add_rows (AtomJob.rowOf
                        ((reset_sweep st sw).child.applyValues
                          (st.adaptive (reset_sweep st sw).strat).1) (ts 0) (env 0))) } })
        1 f
        (r.add_rows (AtomJob.rowOf
          ((reset_sweep st sw).child.applyValues
            (st.adaptive (reset_sweep st sw).strat).1) (ts 0) (env 0)))
        rfl rfl rfl rfl
        (fun i hi => by
          have h := hne (i + 1) (by omega)
          rw [stratOut_shift] at h
          exact h)
        (by
          have h := hend
          rw [stratOut_shift] at h
          exact h)
        (by omega)
    rw [hsplit]
    refine ⟨_ :: prods', drain, rfl, ?_, ?_, hdb, hdr, hdw, hds,
            ⟨r2, hr2, ?_⟩, hdry, hstop⟩
    · simp [hlen]
    · intro i h
      cases i with
      | zero => exact ⟨rfl, rfl⟩
      | succ j =>
        have hj : j < prods'.length := by
          simp only [List.length_cons] at h
          omega
        have hm := hprod (prods'.get ⟨j, hj⟩) (List.get_mem prods' j hj)
        exact ⟨hm.1, hm.2⟩
    · have h5 : (r.add_rows (AtomJob.rowOf
          ((reset_sweep st sw).child.applyValues
            (st.adaptive (reset_sweep st sw).strat).1) (ts 0) (env 0))).rows.length =
          r.rows.length + 1 := by
        simp [DataRecord.add_rows]
      omega

/-- C2.  The odometer defect evaluated on a full 2x2 grid trajectory:
after `reset` zeroes every digit (carry-out included), the first call
returns the all-zero combination and the next calls enumerate the grid in
axis-0-fastest (row-major) order — but the call that should return the
*last* combination propagates the carry into the extra digit and then
subscripts `_shape` (which has one entry per axis only) out of range: it
raises `IndexError`, with the carry digit left at 1 and the last
combination never returned.  Every later call, seeing the carry digit at
1, returns the empty mapping and leaves the state unchanged.  A
1-candidate axis shows the same failure on its very first call. -/
theorem grid_adaptive_raises_on_last_combination :
    GridScanner.reset ⟨[("x", [10, 11]), ("y", [20, 21])], [2, 2], [1, 0, 1]⟩ =
      ⟨[("x", [10, 11]), ("y", [20, 21])], [2, 2], [0, 0, 0]⟩ ∧
    GridScanner.adaptive ⟨[("x", [10, 11]), ("y", [20, 21])], [2, 2], [0, 0, 0]⟩ =
      (.ok [("x", 10), ("y", 20)],
       ⟨[("x", [10, 11]), ("y", [20, 21])], [2, 2], [1, 0, 0]⟩) ∧
    GridScanner.adaptive ⟨[("x", [10, 11]), ("y", [20, 21])], [2, 2], [1, 0, 0]⟩ =
      (.ok [("x", 11), ("y", 20)],
       ⟨[("x", [10, 11]), ("y", [20, 21])], [2, 2], [0, 1, 0]⟩) ∧
    GridScanner.adaptive ⟨[("x", [10, 11]), ("y", [20, 21])], [2, 2], [0, 1, 0]⟩ =
      (.ok [("x", 10), ("y", 21)],
       ⟨[("x", [10, 11]), ("y", [20, 21])], [2, 2], [1, 1, 0]⟩) ∧
    GridScanner.adaptive ⟨[("x", [10, 11]), ("y", [20, 21])], [2, 2], [1, 1, 0]⟩ =
      (.error .indexError,
       ⟨[("x", [10, 11]), ("y", [20, 21])], [2, 2], [0, 0, 1]⟩) ∧
    GridScanner.adaptive ⟨[("x", [10, 11]), ("y", [20, 21])], [2, 2], [0, 0, 1]⟩ =
      (.ok [], ⟨[("x", [10, 11]), ("y", [20, 21])], [2, 2], [0, 0, 1]⟩) ∧
    GridScanner.adaptive ⟨[("x", [5])], [1], [0, 0]⟩ =
      (.error .indexError, ⟨[("x", [5])], [1], [0, 1]⟩) := by
  refine ⟨?_, ?_, ?_, ?_, ?_, ?_, ?_⟩ <;> decide

/-- C4.  The getter loop of `AtomJob.__init__` reads the *setter* loop's
variable: a getter binding `("b", "pb")` built next to a setter binding
`("a", "pa", 0)` is registered as `("b", "pa")`; with no setters at all the
construction raises `NameError`; and during a non-dry-run pass the get
phase therefore reads parameter `"pa"` (value 5 in the environment below)
instead of `"pb"` (value 7). -/
theorem getter_binding_registers_last_setter_parameter :
    (AtomJob.init [("a", "pa", 0)] [("b", "pb")] 0 0 0).map (fun j => j.getters) =
      .ok [("b", "pa")] ∧
    AtomJob.init [] [("b", "pb")] 0 0 0 = .error .nameError ∧
    (AtomJob.init [("a", "pa", 0)] [("b", "pb")] 0 0 0).map (fun j =>
      (AtomJob.body { j with record := some ⟨"r", ["timestamp", "a", "b"], []⟩ } 0
        (fun p => if p = "pb" then 7 else 5)).2.row) =
      .ok (some [("timestamp", 0), ("a", 0), ("b", 5)]) := by
  decide

/-- C5.  Construction with an empty-candidate axis dies of the mismatched
arity `map` lambda (`TypeError`), not of the grid validation; a `Scanner`
with an empty value list dies of `values[0]` (`IndexError`); only the
fully-empty grid reaches `_check_grid` and its descriptive
`ValueError`. -/
theorem invalid_grid_and_empty_values_raise_nonvalidation_errors :
    GridScanner.init (.ofParams [⟨"px", 0⟩]) [("x", [])] (.ofParams []) 0 0 0 0 =
      .error .typeError ∧
    Scanner.init (.ofParams [⟨"px", 0⟩]) [] (.ofParams []) 0 0 0 0 =
      .error .indexError ∧
    GridScanner.init (.ofParams [⟨"px", 0⟩]) [] (.ofParams []) 0 0 0 0 =
      .error (.valueError "Empty value grid to scan") := by
  decide

/-- C7.  The normalization helpers evaluated on the three accepted shapes:
`parse_setters` and `parse_setters_with_values` raise `TypeError` on any
non-empty pair-sequence or mapping input (their `map` lambdas take two
parameters), and only handle the plain parameter sequence; `parse_getters`
handles all three shapes. -/
theorem parse_setters_tuple_and_dict_shapes_raise :
    parse_setters (.ofPairs [("x", ⟨"px", 3⟩)]) = .error .typeError ∧
    parse_setters (.ofDict [("x", ⟨"px", 3⟩)]) = .error .typeError ∧
    parse_setters_with_values (.ofPairs [("x", ⟨"px", 3⟩)]) [("x", 9)] =
      .error .typeError ∧
    parse_setters_with_values (.ofDict [("x", ⟨"px", 3⟩)]) [("x", 9)] =
      .error .typeError ∧
    parse_setters (.ofParams [⟨"px", 3⟩]) = .ok [("px", ⟨"px", 3⟩, 3)] ∧
    parse_setters_with_values (.ofParams [⟨"px", 3⟩]) [("px", 9)] =
      .ok [("px", ⟨"px", 3⟩, 9)] ∧
    parse_setters_with_values (.ofParams [⟨"px", 3⟩]) [("other", 9)] =
      .ok [("px", ⟨"px", 3⟩, 3)] ∧
    parse_getters (.ofParams [⟨"px", 3⟩]) = [("px", ⟨"px", 3⟩)] ∧
    parse_getters (.ofPairs [("x", ⟨"px", 3⟩)]) = [("x", ⟨"px", 3⟩)] ∧
    parse_getters (.ofDict [("x", ⟨"px", 3⟩)]) = [("x", ⟨"px", 3⟩)] := by
  refine ⟨?_, ?_, ?_, ?_, ?_, ?_, ?_, ?_, ?_, ?_⟩ <;> decide

/-- C9.  Replacing while sweeping is rejected for both classes, and an
idle Scanner replacement installs and resets the cursor; but an idle
*grid* replacement assigns `_grid` and then raises `TypeError` from the
`_shape` recomputation, leaving the cursor (here `[1, 0]`) and the cached
shape un-reset. -/
theorem grid_setter_raises_and_keeps_cursor :
    GridScanner.setGrid false ⟨[("x", [5])], [1], [1, 0]⟩ [("y", [1, 2])] =
      (⟨[("y", [1, 2])], [1], [1, 0]⟩, some .typeError) ∧
    GridScanner.setGrid true ⟨[("x", [5])], [1], [1, 0]⟩ [("y", [1, 2])] =
      (⟨[("x", [5])], [1], [1, 0]⟩, none) ∧
    Scanner.setValues false ⟨[[("x", 9)]], 1⟩ [[("x", 1)], [("x", 2)]] =
      ⟨[[("x", 1)], [("x", 2)]], 0⟩ ∧
    Scanner.setValues true ⟨[[("x", 9)]], 1⟩ [[("x", 1)], [("x", 2)]] =
      ⟨[[("x", 9)]], 1⟩ := by
  decide

/-- C3.  `perform_sweep` returns `continue = false` exactly when the
child's `is_dryrun` flag is true on entry; and on an empty adaptive result
it configures the drain pass — child `delay_begin = 0`,
`delay_end = ` the sweep's `delay_end`, `is_dryrun = true` — leaving
`sweeping` (and every other sweeper field) unchanged and returning
`continue = true`. -/
theorem perform_sweep_stop_iff_dryrun_and_drain_config {S : Type}
    (st : Strategy S) (sw : Sweeper S) :
    ((perform_sweep st sw).2 = false ↔ sw.child.is_dryrun = true) ∧
    (sw.child.is_dryrun = false → (st.adaptive sw.strat).1 = [] →
      perform_sweep st sw =
        ({ sw with
           strat := (st.adaptive sw.strat).2
           child := { sw.child with
                      delay_begin := 0
                      delay_end := sw.delay_end
                      is_dryrun := true } },
         true)) := by
  constructor
  · cases hd : sw.child.is_dryrun with
    | true => simp [ps_dry st sw hd]
    | false =>
      rcases eq_or_ne (st.adaptive sw.strat).1 [] with ha | ha
      · simp [ps_empty st sw hd ha]
      · cases hs : sw.sweeping with
        | true => simp [ps_prod_next st sw hd hs ha]
        | false => simp [ps_prod_first st sw hd hs ha]
  · intro hd ha
    exact ps_empty st sw hd ha

/-- Witness for C3 at a concrete exhausted Scanner sweeper. -/
theorem perform_sweep_stop_iff_dryrun_and_drain_config_witness :
    ((perform_sweep Scanner.strategy scannerIdleEx).2 = false ↔
      scannerIdleEx.child.is_dryrun = true) ∧
    perform_sweep Scanner.strategy scannerIdleEx =
      ({ scannerIdleEx with
         strat := (Scanner.strategy.adaptive scannerIdleEx.strat).2
         child := { scannerIdleEx.child with
                    delay_begin := 0
                    delay_end := scannerIdleEx.delay_end
                    is_dryrun := true } },
       true) :=
  ⟨(perform_sweep_stop_iff_dryrun_and_drain_config Scanner.strategy scannerIdleEx).1,
   (perform_sweep_stop_iff_dryrun_and_drain_config Scanner.strategy scannerIdleEx).2
     rfl (by decide)⟩

/-- C6 counterexample: the sweep jobs' `record` setter performs no schema
validation — a record lacking the child's declared `timestamp` column is
bound anyway, with no error and no unchanged previous binding, refuting
the claim for the sweep job types. -/
theorem sweeper_record_setter_skips_validation_cex :
    ("timestamp" ∈ scannerEx.child.columns) ∧
    ((⟨"bad", ["other"], []⟩ : DataRecord).has_column "timestamp" = false) ∧
    Sweeper.setRecord scannerEx ⟨"bad", ["other"], []⟩ =
      { scannerEx with child := { scannerEx.child with
        record := some ⟨"bad", ["other"], []⟩ } } :=
  ⟨by decide, by decide, rfl⟩

/-- C6 amended: the Atomic Job's `record` setter validates the schema —
if every declared column is present the record becomes bound, and if any
is missing the assignment fails with an error and produces no binding —
while the sweep jobs' `record` setter binds the record to the child with
no validation at all. -/
theorem record_setter_validation_amended {S : Type} (j : AtomJob)
    (r : DataRecord) (sw : Sweeper S) (r2 : DataRecord) :
    ((∀ c ∈ j.columns, r.has_column c = true) →
      AtomJob.setRecord j r = ({ j with record := some r }, none)) ∧
    ((∃ c ∈ j.columns, r.has_column c = false) →
      (AtomJob.setRecord j r).1 = j ∧ (AtomJob.setRecord j r).2.isSome = true) ∧
    Sweeper.setRecord sw r2 =
      { sw with child := { sw.child with record := some r2 } } := by
  refine ⟨?_, ?_, rfl⟩
  · intro h
    have hf : j.columns.find? (fun c => ! r.has_column c) = none := by
      rw [List.find?_eq_none]
      intro x hx
      simp [h x hx]
    simp [AtomJob.setRecord, hf]
  · rintro ⟨c, hc, hcol⟩
    have hf : (j.columns.find? (fun c => ! r.has_column c)).isSome = true := by
      rw [List.find?_isSome]
      exact ⟨c, hc, by simp [hcol]⟩
    obtain ⟨c1, hc1⟩ := Option.isSome_iff_exists.mp hf
    simp [AtomJob.setRecord, hc1]

/-- Witness for C6's amended statement: a matching record binds, a record
missing `timestamp` is rejected by the Atomic Job, and the sweeper binds
the same bad record without complaint. -/
theorem record_setter_validation_amended_witness :
    (AtomJob.setRecord scannerEx.child ⟨"rec2", ["timestamp", "x", "y"], []⟩ =
      ({ scannerEx.child with
         record := some ⟨"rec2", ["timestamp", "x", "y"], []⟩ }, none)) ∧
    ((AtomJob.setRecord scannerEx.child ⟨"bad", ["other"], []⟩).1 =
        scannerEx.child ∧
     (AtomJob.setRecord scannerEx.child ⟨"bad", ["other"], []⟩).2.isSome = true) ∧
    Sweeper.setRecord scannerIdleEx ⟨"bad", ["other"], []⟩ =
      { scannerIdleEx with child := { scannerIdleEx.child with
        record := some ⟨"bad", ["other"], []⟩ } } :=
  ⟨(record_setter_validation_amended scannerEx.child
      ⟨"rec2", ["timestamp", "x", "y"], []⟩ scannerIdleEx
      ⟨"bad", ["other"], []⟩).1 (by decide),
   (record_setter_validation_amended scannerEx.child
      ⟨"bad", ["other"], []⟩ scannerIdleEx ⟨"bad", ["other"], []⟩).2.1
     ⟨"timestamp", by decide, by decide⟩,
   (record_setter_validation_amended scannerEx.child
      ⟨"bad", ["other"], []⟩ scannerIdleEx ⟨"bad", ["other"], []⟩).2.2⟩

/-- C8 counterexample: a dry-run pass of a job with a setter configured,
`delay_begin = 1`, `delay_after_set = 2`, `delay_end = 3` performs exactly
the sleeps `[1, 3]`: the `delay_after_set` wait point is not honored,
refuting the claim that all three wait points are. -/
theorem dryrun_skips_delay_after_set_cex :
    (AtomJob.body dryJobEx 0 (fun _ => 0)).2.sleeps = [1, 3] ∧
    ¬ ((2 : ℚ) ∈ (AtomJob.body dryJobEx 0 (fun _ => 0)).2.sleeps) := by
  decide

/-- C8 amended: with `is_dryrun` true the setter writes, the getter reads
and the record append are all suppressed and the `delay_begin` and
`delay_end` waits are still honored; the `delay_after_set` wait belongs to
the suppressed setter phase and is skipped with it. -/
theorem dryrun_suppresses_phases_amended (j : AtomJob) (ts : Val)
    (env : String → Val) (h : j.is_dryrun = true) :
    AtomJob.body j ts env =
      (j, ⟨j.delay_begin, sleepIf j.delay_begin ++ sleepIf j.delay_end,
           [], none⟩) :=
  body_dry j ts env h

/-- Witness for C8's amended statement at the concrete dry-run job. -/
theorem dryrun_suppresses_phases_amended_witness :
    AtomJob.body dryJobEx 0 (fun _ => 0) =
      (dryJobEx, ⟨dryJobEx.delay_begin,
        sleepIf dryJobEx.delay_begin ++ sleepIf dryJobEx.delay_end,
        [], none⟩) :=
  dryrun_suppresses_phases_amended dryJobEx 0 (fun _ => 0) rfl

lemma ps_sweeping_mono {S : Type} (st : Strategy S) (sw : Sweeper S)
    (h : sw.sweeping = true) : (perform_sweep st sw).1.sweeping = true := by
  cases hd : sw.child.is_dryrun with
  | true => simp [ps_dry st sw hd, h]
  | false =>
    rcases eq_or_ne (st.adaptive sw.strat).1 [] with ha | ha
    · simp [ps_empty st sw hd ha, h]
    · cases hs : sw.sweeping with
      | true => simp [ps_prod_next st sw hd hs ha, hs]
      | false => simp [hs] at h

lemma runSweep_sweeping_mono {S : Type} (st : Strategy S)
    (env : Nat → String → Val) (ts : Nat → Val) :
    ∀ (fuel k : Nat) (sw : Sweeper S), sw.sweeping = true →
      (runSweep st env ts fuel k sw).1.sweeping = true := by
  intro fuel
  induction fuel with
  | zero => intro k sw h; exact h
  | succ f ih =>
    intro k sw h
    have hm := ps_sweeping_mono st sw h
    rcases h1 : perform_sweep st sw with ⟨sw1, c⟩
    rw [h1] at hm
    cases c with
    | false =>
      simp only [runSweep, h1]
      exact hm
    | true =>
      rcases hb : AtomJob.body sw1.child (ts k) (env k) with ⟨c2, tr⟩
      rw [runSweep_step_go st env ts f k sw sw1 { sw1 with child := c2 } c2 tr
        h1 hb rfl]
      exact ih (k + 1) { sw1 with child := c2 } hm

/-- C10.  The `sweeping` flag is set by the first productive adaptive step,
is never cleared by the sweeper advance (in particular not by the drain
configuration) nor by any number of run-loop passes, and only `reset_sweep`
resets it; while it is set, `Scanner.values` and `GridScanner.grid`
replacements are rejected — so they remain rejected after a run finishes
and before the next `reset_sweep`. -/
theorem sweeping_flag_persists_until_reset {S : Type} (st : Strategy S)
    (env : Nat → String → Val) (ts : Nat → Val) (fuel k : Nat)
    (sw : Sweeper S) :
    (sw.child.is_dryrun = false → (st.adaptive sw.strat).1 ≠ [] →
      (perform_sweep st sw).1.sweeping = true) ∧
    ((perform_sweep st sw).1.sweeping = false → sw.sweeping = false) ∧
    (sw.sweeping = true → (runSweep st env ts fuel k sw).1.sweeping = true) ∧
    ((reset_sweep st sw).sweeping = false) ∧
    (∀ (sc : ScannerS) (vs : List ValueDict), Scanner.setValues true sc vs = sc) ∧
    (∀ (gs : GridS) (vs : List (String × List Val)),
      GridScanner.setGrid true gs vs = (gs, none)) := by
  refine ⟨?_, ?_, ?_, rfl, ?_, ?_⟩
  · intro hd ha
    cases hs : sw.sweeping with
    | true => simp [ps_prod_next st sw hd hs ha, hs]
    | false => simp [ps_prod_first st sw hd hs ha]
  · intro h
    cases hsw : sw.sweeping with
    | false => rfl
    | true =>
      rw [ps_sweeping_mono st sw hsw] at h
      exact absurd h (by decide)
  · exact fun h => runSweep_sweeping_mono st env ts fuel k sw h
  · intro sc vs
    simp [Scanner.setValues]
  · intro gs vs
    simp [GridScanner.setGrid]

/-- Witness for C10 at concrete Scanner sweepers (one just-reset, one
mid-sweep, one exhausted) and concrete cursor states. -/
theorem sweeping_flag_persists_until_reset_witness :
    (perform_sweep Scanner.strategy scannerEx).1.sweeping = true ∧
    scannerIdleEx.sweeping = false ∧
    (runSweep Scanner.strategy (fun _ _ => 0) (fun _ => 0) 4 0
      scannerRunEx).1.sweeping = true ∧
    (reset_sweep Scanner.strategy scannerRunEx).sweeping = false ∧
    Scanner.setValues true ⟨[[("x", 9)]], 1⟩ [[("x", 7)]] = ⟨[[("x", 9)]], 1⟩ ∧
    GridScanner.setGrid true ⟨[("x", [5])], [1], [0, 0]⟩ [("y", [6])] =
      (⟨[("x", [5])], [1], [0, 0]⟩, none) :=
  ⟨(sweeping_flag_persists_until_reset Scanner.strategy (fun _ _ => 0)
      (fun _ => 0) 4 0 scannerEx).1 rfl (by decide),
   (sweeping_flag_persists_until_reset Scanner.strategy (fun _ _ => 0)
      (fun _ => 0) 4 0 scannerIdleEx).2.1 (by decide),
   (sweeping_flag_persists_until_reset Scanner.strategy (fun _ _ => 0)
      (fun _ => 0) 4 0 scannerRunEx).2.2.1 rfl,
   (sweeping_flag_persists_until_reset Scanner.strategy (fun _ _ => 0)
      (fun _ => 0) 4 0 scannerRunEx).2.2.2.1,
   (sweeping_flag_persists_until_reset Scanner.strategy (fun _ _ => 0)
      (fun _ => 0) 4 0 scannerRunEx).2.2.2.2.1 ⟨[[("x", 9)]], 1⟩ [[("x", 7)]],
   (sweeping_flag_persists_until_reset Scanner.strategy (fun _ _ => 0)
      (fun _ => 0) 4 0 scannerRunEx).2.2.2.2.2 ⟨[("x", [5])], [1], [0, 0]⟩
     [("y", [6])]⟩

/-- Witness for C1: the two-value Scanner run records exactly 2 rows, the
first with begin delay 1, the second with gap delay 2, then one unrecorded
drain pass sleeping only `delay_end = 3`, after which the advance stops. -/
theorem sweep_run_records_exactly_n_rows_witness :
    ∃ prods drain,
      (runSweep Scanner.strategy (fun _ _ => 0) (fun _ => 0) 4 0
        (reset_sweep Scanner.strategy scannerEx)).2 = prods ++ [drain] ∧
      prods.length = 2 ∧
      (∀ i (h : i < prods.length), (prods.get ⟨i, h⟩).row.isSome = true ∧
        (prods.get ⟨i, h⟩).dBegin =
          if i = 0 then scannerEx.delay_begin else scannerEx.delay_gap) ∧
      drain.dBegin = 0 ∧
      drain.row = none ∧
      drain.hwWrites = [] ∧
      drain.sleeps = sleepIf scannerEx.delay_end ∧
      (∃ r2, (runSweep Scanner.strategy (fun _ _ => 0) (fun _ => 0) 4 0
          (reset_sweep Scanner.strategy scannerEx)).1.child.record = some r2 ∧
        r2.rows.length = (⟨"rec", ["timestamp", "x"], []⟩ : DataRecord).rows.length + 2) ∧
      (runSweep Scanner.strategy (fun _ _ => 0) (fun _ => 0) 4 0
        (reset_sweep Scanner.strategy scannerEx)).1.child.is_dryrun = true ∧
      perform_sweep Scanner.strategy
        (runSweep Scanner.strategy (fun _ _ => 0) (fun _ => 0) 4 0
          (reset_sweep Scanner.strategy scannerEx)).1 =
        ((runSweep Scanner.strategy (fun _ _ => 0) (fun _ => 0) 4 0
          (reset_sweep Scanner.strategy scannerEx)).1, false) :=
  sweep_run_records_exactly_n_rows Scanner.strategy scannerEx 2 (fun _ _ => 0)
    (fun _ => 0) ⟨"rec", ["timestamp", "x"], []⟩ 4 rfl (by decide) (by decide)
    (by decide)

end Softlab
